import Mathlib

/-!
Verification development for the `push` repository: a driver for the
Ableton Push 2 control surface.  The embedding below translates the
protocol engine of the repository — the MIDI event decoder
(`src/lib.rs`, `Push2::poll_event`), the control-state cache
(`src/state.rs`, `Push2State`), the facade light commands
(`src/lib.rs`, `Push2::set_pad_color` / `set_button_light`) and the
display transfer-buffer encoder (`src/display.rs`) — into Lean.

Bytes are modelled as `Nat`; the `i32` encoder accumulator is modelled
as `Int` with explicit two's-complement wrapping at `2^32`.  MIDI / USB
transports are externalities: sends are modelled as emitted message
lists, and the fallibility of a facade send as a boolean oracle.
-/

set_option maxRecDepth 4096

/-- Named control buttons, as enumerated in `src/button_map.rs`. -/
inductive ControlName
  | Control29
  | Control20
  | Control21
  | Control24
  | Control25
deriving DecidableEq, Repr

/-- The eleven rotary encoders, as enumerated in `src/button_map.rs`. -/
inductive EncoderName
  | Control14
  | Control15
  | Control71
  | Control72
  | Control73
  | Control74
  | Control75
  | Control76
  | Control77
  | Control78
  | Control79
deriving DecidableEq, Repr

/-- Modelled from the spec: `PadCoord {x, y}` identifies one of the 64
grid cells.  The struct itself is referenced throughout `src/lib.rs`,
`src/state.rs` and the examples (`PadCoord { x, y }`) but its
declaration is absent from the files under `src/`. -/
structure PadCoord where
  x : Nat
  y : Nat
deriving DecidableEq, Repr

/-- High-level events, from `Push2Event` in `src/lib.rs`. -/
inductive Push2Event
  | PadPressed (coord : PadCoord) (velocity : Nat)
  | PadReleased (coord : PadCoord)
  | ButtonPressed (name : ControlName) (velocity : Nat)
  | ButtonReleased (name : ControlName)
  | EncoderTwisted (name : EncoderName) (raw_delta : Nat) (value : Int)
  | SliderMoved (value : Nat)
deriving DecidableEq, Repr

/-- MIDI status constants from `src/lib.rs`. -/
def NOTE_ON : Nat := 144

/-- MIDI note-off status constant from `src/lib.rs`. -/
def NOTE_OFF : Nat := 128

/-- MIDI control-change status constant from `src/lib.rs`. -/
def CONTROL_CHANGE : Nat := 176

/-- MIDI pitch-bend status constant from `src/lib.rs`. -/
def PITCH_BEND : Nat := 224

/-- The address map of `src/button_map.rs`.  Its three tables are
deserialized from an external RON resource at startup, so they are
abstract lookup functions here.  `note_map` yields `PadCoord` as the
call sites in `src/lib.rs` expect.  The inverse lookups
`note_address` / `control_address` are modelled from the spec (§4.1):
their definitions are absent from `src/`, only their callers are. -/
structure ButtonMap where
  note_map : Nat → Option PadCoord
  control_map : Nat → Option ControlName
  encoder_map : Nat → Option EncoderName
  note_address : PadCoord → Option Nat
  control_address : ControlName → Option Nat

/-- Lookup of a note address, `ButtonMap::get_note`. -/
def ButtonMap.get_note (m : ButtonMap) (address : Nat) : Option PadCoord :=
  m.note_map address

/-- Lookup of a control address, `ButtonMap::get_control`. -/
def ButtonMap.get_control (m : ButtonMap) (address : Nat) : Option ControlName :=
  m.control_map address

/-- Lookup of an encoder address, `ButtonMap::get_encoder`. -/
def ButtonMap.get_encoder (m : ButtonMap) (address : Nat) : Option EncoderName :=
  m.encoder_map address

/-- Modelled from the spec: inverse pad lookup `get_note_address`,
called from `src/lib.rs` and `src/state.rs` but not defined under
`src/`. -/
def ButtonMap.get_note_address (m : ButtonMap) (coord : PadCoord) : Option Nat :=
  m.note_address coord

/-- Modelled from the spec: inverse button lookup
`get_control_address`, called from `src/lib.rs` and `src/state.rs` but
not defined under `src/`. -/
def ButtonMap.get_control_address (m : ButtonMap) (name : ControlName) : Option Nat :=
  m.control_address name

/-- State of one grid pad, `PadState` in `src/state.rs`. -/
structure PadState where
  velocity : Nat
  color : Nat
deriving DecidableEq, Repr

/-- State of one control button, `ButtonState` in `src/state.rs`. -/
structure ButtonState where
  velocity : Nat
  light : Nat
deriving DecidableEq, Repr

/-- State of one encoder, `EncoderState` in `src/state.rs`; `value` is
the `i32` integrated absolute position. -/
structure EncoderState where
  value : Int
deriving DecidableEq, Repr

/-- The complete cached device state, `Push2State` in `src/state.rs`.
The `[[PadState; 8]; 8]` grid indexed `pads[y][x]` becomes a function
of `y` then `x`; the two `HashMap`s become `Option`-valued functions
(`none` = key absent). -/
structure Push2State where
  pads : Nat → Nat → PadState
  buttons : ControlName → Option ButtonState
  encoders : EncoderName → Option EncoderState
  slider : Nat

/-- Fresh state, `Push2State::new` in `src/state.rs`: zeroed pads,
empty maps, slider 0. -/
def Push2State.new : Push2State :=
  ⟨fun _ _ => ⟨0, 0⟩, fun _ => none, fun _ => none, 0⟩

/-- Write the velocity of pad `[y][x]`, leaving its color and every
other pad untouched (`self.pads[coord.y][coord.x].velocity = v`). -/
def setPadVelocity (s : Push2State) (y x v : Nat) : Push2State :=
  ⟨fun yy xx => if yy = y ∧ xx = x then ⟨v, (s.pads y x).color⟩ else s.pads yy xx,
   s.buttons, s.encoders, s.slider⟩

/-- Write the color of pad `[y][x]`, leaving its velocity and every
other pad untouched (`self.pads[coord.y][coord.x].color = c`). -/
def setPadColorField (s : Push2State) (y x c : Nat) : Push2State :=
  ⟨fun yy xx => if yy = y ∧ xx = x then ⟨(s.pads y x).velocity, c⟩ else s.pads yy xx,
   s.buttons, s.encoders, s.slider⟩

/-- The `buttons.entry(name).or_default().velocity = v` idiom: insert a
default `ButtonState` when absent, then overwrite its velocity. -/
def setButtonVelocity (s : Push2State) (name : ControlName) (v : Nat) : Push2State :=
  let b := (s.buttons name).getD ⟨0, 0⟩
  ⟨s.pads, fun k => if k = name then some ⟨v, b.light⟩ else s.buttons k,
   s.encoders, s.slider⟩

/-- Default pad color sent on a press, `PAD_COLOR_ON` in `src/state.rs`. -/
def PAD_COLOR_ON : Nat := 122

/-- Default button light sent on a press, `BUTTON_LIGHT_ON` in `src/state.rs`. -/
def BUTTON_LIGHT_ON : Nat := 2

/-- Two's-complement reduction of an integer into the `i32` range. -/
def wrap32 (n : Int) : Int :=
  (n + 2147483648) % 4294967296 - 2147483648

/-- Rust's `i32::wrapping_add` on the `Int` model. -/
def wrappingAdd32 (a b : Int) : Int :=
  wrap32 (a + b)

/-- Modelled from the spec's words only (for comparison with the code):
`saturating_add` clamped at the `i32` boundary, as §4.3 prescribes for
the stored absolute encoder value. -/
def saturating_add32 (a b : Int) : Int :=
  max (-2147483648) (min (a + b) 2147483647)

/-- `Push2State::set_pad_color` in `src/state.rs`: update the cached
color first, then send the MIDI message when the coordinate has an
address (the send is modelled as the emitted message list). -/
def Push2State.set_pad_color (s : Push2State) (coord : PadCoord) (color : Nat)
    (m : ButtonMap) : Push2State × List (List Nat) :=
  let s2 := setPadColorField s coord.y coord.x color
  match m.get_note_address coord with
  | some address =>
      (s2, [if color = 0 then [NOTE_OFF, address, 0] else [NOTE_ON, address, color]])
  | none => (s2, [])

/-- `Push2State::set_button_light` in `src/state.rs`: update the cached
light first (entry-or-default), then send when the name has an
address. -/
def Push2State.set_button_light (s : Push2State) (name : ControlName) (light : Nat)
    (m : ButtonMap) : Push2State × List (List Nat) :=
  let b := (s.buttons name).getD ⟨0, 0⟩
  let s2 : Push2State :=
    ⟨s.pads, fun k => if k = name then some ⟨b.velocity, light⟩ else s.buttons k,
     s.encoders, s.slider⟩
  match m.get_control_address name with
  | some address =>
      (s2, [if light = 0 then [CONTROL_CHANGE, address, 0] else [CONTROL_CHANGE, address, light]])
  | none => (s2, [])

/-- `Push2State::update_from_event` in `src/state.rs`, translated
arm-for-arm.  Pad and button arms write the velocity and then call the
light-command helpers (as the source does).  The `EncoderTwisted` arm
follows the source pattern `EncoderTwisted { name, value }`: the delta
is computed from the event's `value` field (`raw_delta` is not read)
with the `> 64` test, and accumulated with `i32` `wrapping_add`. -/
def Push2State.update_from_event (s : Push2State) (e : Push2Event)
    (m : ButtonMap) : Push2State × List (List Nat) :=
  match e with
  | .PadPressed coord velocity =>
      (setPadVelocity s coord.y coord.x velocity).set_pad_color coord PAD_COLOR_ON m
  | .PadReleased coord =>
      (setPadVelocity s coord.y coord.x 0).set_pad_color coord 0 m
  | .ButtonPressed name velocity =>
      (setButtonVelocity s name velocity).set_button_light name BUTTON_LIGHT_ON m
  | .ButtonReleased name =>
      (setButtonVelocity s name 0).set_button_light name 0 m
  | .EncoderTwisted name _raw value =>
      let st := (s.encoders name).getD ⟨0⟩
      let delta : Int := if value > 64 then (128 - value) * (-1) else value
      (⟨s.pads, s.buttons,
        fun k => if k = name then some ⟨wrappingAdd32 st.value delta⟩ else s.encoders k,
        s.slider⟩, [])
  | .SliderMoved value =>
      (⟨s.pads, s.buttons, s.encoders, value⟩, [])

/-- Per-message decoding logic of `Push2::poll_event` in `src/lib.rs`:
status dispatch, the length-3 guard for the three-byte statuses, and
the map lookups.  `none` covers both the source's `continue` (short
message) and `None` (unmapped or unknown status) — both drop the
message. -/
def decode_message (m : ButtonMap) (message : List Nat) : Option Push2Event :=
  match message with
  | [] => none
  | status :: rest =>
    if status = NOTE_ON ∨ status = NOTE_OFF then
      match rest with
      | address :: velocity :: _ =>
        match m.get_note address with
        | some coord =>
            if status = NOTE_ON ∧ velocity > 0 then
              some (.PadPressed coord velocity)
            else
              some (.PadReleased coord)
        | none => none
      | _ => none
    else if status = CONTROL_CHANGE then
      match rest with
      | address :: velocity :: _ =>
        match m.get_control address with
        | some name =>
            if velocity > 0 then some (.ButtonPressed name velocity)
            else some (.ButtonReleased name)
        | none =>
            match m.get_encoder address with
            | some name => some (.EncoderTwisted name velocity 0)
            | none => none
      | _ => none
    else if status = PITCH_BEND then
      match rest with
      | lsb :: msb :: _ => some (.SliderMoved (Nat.lor (msb * 128) lsb))
      | _ => none
    else none

/-- The tail of `Push2::poll_event` (src/lib.rs lines 260–266): apply
the decoded event to the cache, then rewrite an `EncoderTwisted`
event's `value` with `encoders.get(name).map_or(0, |s| s.value)` before
delivery. -/
def deliver (m : ButtonMap) (s : Push2State) (e : Push2Event) :
    Push2Event × Push2State × List (List Nat) :=
  let u := s.update_from_event e m
  match e with
  | .EncoderTwisted name raw _ =>
      (.EncoderTwisted name raw ((u.1.encoders name).elim 0 EncoderState.value),
       u.1, u.2)
  | _ => (e, u.1, u.2)

/-- The drain loop of `Push2::poll_event`: pop queued messages until
one decodes, apply-and-deliver that event, return the rest of the
queue; an exhausted queue yields no event. -/
def poll_event (m : ButtonMap) (s : Push2State) :
    List (List Nat) → Option Push2Event × Push2State × List (List Nat)
  | [] => (none, s, [])
  | msg :: rest =>
    match decode_message m msg with
    | some e =>
        let d := deliver m s e
        (some d.1, d.2.1, rest)
    | none => poll_event m s rest

/-- `Push2::set_pad_color` in `src/lib.rs`: look up the address (no-op
`Ok` when unmapped), send the MIDI message, and only after a successful
send write the color into the cache.  `send` is the transport oracle
(`true` = `Ok`); the second component is the resulting cached state. -/
def Push2.set_pad_color (m : ButtonMap) (send : List Nat → Bool) (s : Push2State)
    (coord : PadCoord) (color : Nat) : Except Unit Unit × Push2State :=
  match m.get_note_address coord with
  | some address =>
      let message := if color = 0 then [NOTE_OFF, address, 0] else [NOTE_ON, address, color]
      if send message then
        (Except.ok (), setPadColorField s coord.y coord.x color)
      else
        (Except.error (), s)
  | none => (Except.ok (), s)

/-- `Push2::set_button_light` in `src/lib.rs`: same shape as
`Push2::set_pad_color`, with the entry-or-default light write happening
only after a successful send. -/
def Push2.set_button_light (m : ButtonMap) (send : List Nat → Bool) (s : Push2State)
    (name : ControlName) (light : Nat) : Except Unit Unit × Push2State :=
  match m.get_control_address name with
  | some address =>
      let message := if light = 0 then [CONTROL_CHANGE, address, 0] else [CONTROL_CHANGE, address, light]
      if send message then
        let b := (s.buttons name).getD ⟨0, 0⟩
        (Except.ok (),
         ⟨s.pads, fun k => if k = name then some ⟨b.velocity, light⟩ else s.buttons k,
          s.encoders, s.slider⟩)
      else
        (Except.error (), s)
  | none => (Except.ok (), s)

/-- Display width in pixels, `DISPLAY_WIDTH` in `src/display.rs`. -/
def DISPLAY_WIDTH : Nat := 960

/-- Display height in lines, `DISPLAY_HEIGHT` in `src/display.rs`. -/
def DISPLAY_HEIGHT : Nat := 160

/-- Bytes per transfer line (960 pixels × 2 bytes + 128 filler),
`BYTES_PER_LINE` in `src/display.rs`. -/
def BYTES_PER_LINE : Nat := 2048

/-- USB bulk OUT endpoint, `PUSH2_BULK_EP_OUT` in `src/display.rs`. -/
def PUSH2_BULK_EP_OUT : Nat := 1

/-- The fixed 16-byte frame header, `HEADER` in `src/display.rs`. -/
def HEADER : List Nat :=
  [0xff, 0xcc, 0xaa, 0x88, 0, 0, 0, 0, 0, 0, 0, 0, 0, 0, 0, 0]

/-- The 4-byte repeating XOR mask, `MASK` in `src/display.rs`. -/
def MASK : List Nat := [0xe7, 0xf3, 0xe7, 0xff]

/-- Mask byte at offset `i` (callers pass `i % 4 < 4`). -/
def maskAt (i : Nat) : Nat := MASK.getD i 0

/-- One iteration of the inner loop of
`Push2Display::update_transfer_buffer`: serialize frame cell
`r * DISPLAY_WIDTH + c` little-endian and write its two masked bytes at
`di = r * BYTES_PER_LINE + c * 2` and `di + 1`. -/
def writePixel (fb : Nat → Nat) (tb : Nat → Nat) (r c : Nat) : Nat → Nat :=
  let i := r * DISPLAY_WIDTH + c
  let di := r * BYTES_PER_LINE + c * 2
  fun j =>
    if j = di then Nat.xor (fb i % 256) (maskAt (di % 4))
    else if j = di + 1 then Nat.xor (fb i / 256 % 256) (maskAt ((di + 1) % 4))
    else tb j

/-- The inner (column) loop of `update_transfer_buffer` for row `r`. -/
def updateLine (fb : Nat → Nat) (r : Nat) (tb : Nat → Nat) : Nat → Nat :=
  (List.range DISPLAY_WIDTH).foldl (fun acc c => writePixel fb acc r c) tb

/-- `Push2Display::update_transfer_buffer`: both loops, rows outside
columns.  `fb` is the `u16` frame buffer, `tb` the byte transfer
buffer. -/
def update_transfer_buffer (fb tb : Nat → Nat) : Nat → Nat :=
  (List.range DISPLAY_HEIGHT).foldl (fun acc r => updateLine fb r acc) tb

/-- One USB bulk write: endpoint, payload, timeout in seconds. -/
structure BulkWrite where
  endpoint : Nat
  data : List Nat
  timeout_secs : Nat
deriving DecidableEq

/-- The transfer buffer read out as the byte sequence actually sent. -/
def transferBytes (tb : Nat → Nat) : List Nat :=
  (List.range (BYTES_PER_LINE * DISPLAY_HEIGHT)).map tb

/-- `Push2Display::flush` in `src/display.rs`: re-encode the transfer
buffer, then two bulk writes with a 1-second timeout — the fixed header
followed by the whole transfer buffer. -/
def flush (fb tb : Nat → Nat) : (Nat → Nat) × List BulkWrite :=
  let tb2 := update_transfer_buffer fb tb
  (tb2, [⟨PUSH2_BULK_EP_OUT, HEADER, 1⟩, ⟨PUSH2_BULK_EP_OUT, transferBytes tb2, 1⟩])

/-- `Push2Display::draw_iter` in `src/display.rs`: for each pixel whose
`i32` point converts into `(x @ 0..=959, y @ 0..=159)`, store the `u16`
color at frame index `x + y * 960`; every other point is silently
dropped. -/
def draw_iter (fb : Nat → Nat) (pixels : List ((Int × Int) × Nat)) : Nat → Nat :=
  pixels.foldl
    (fun acc p =>
      if 0 ≤ p.1.1 ∧ p.1.1 ≤ 959 ∧ 0 ≤ p.1.2 ∧ p.1.2 ≤ 159 then
        fun j => if j = p.1.1.toNat + p.1.2.toNat * 960 then p.2 % 65536 else acc j
      else acc)
    fb

/-- A small concrete address map for witnesses and evaluations: pad
(0,0) at note 36, button `Control29` at CC 29, encoder `Control14` at
CC 14, everything else unmapped. -/
def mapEx : ButtonMap :=
  ⟨fun a => if a = 36 then some ⟨0, 0⟩ else none,
   fun a => if a = 29 then some ControlName.Control29 else none,
   fun a => if a = 14 then some EncoderName.Control14 else none,
   fun c => if c = ⟨0, 0⟩ then some 36 else none,
   fun n => if n = ControlName.Control29 then some 29 else none⟩

/-- A concrete state whose `Control14` encoder sits at `i32::MAX`. -/
def sMax : Push2State :=
  ⟨fun _ _ => ⟨0, 0⟩, fun _ => none,
   fun k => if k = EncoderName.Control14 then some ⟨2147483647⟩ else none, 0⟩

/-- A transport oracle whose sends always succeed. -/
def sendOk : List Nat → Bool := fun _ => true

/-- A transport oracle whose sends always fail. -/
def sendFail : List Nat → Bool := fun _ => false

/-- An all-zero frame buffer for witnesses. -/
def fb0 : Nat → Nat := fun _ => 0

/-- An all-zero transfer buffer for witnesses. -/
def tb0 : Nat → Nat := fun _ => 0

/-- Helper: `wrap32` always lands in the `i32` range. -/
theorem wrap32_bounds (n : Int) : -2147483648 ≤ wrap32 n ∧ wrap32 n < 2147483648 := by
  unfold wrap32
  have h1 : 0 ≤ (n + 2147483648) % 4294967296 := Int.emod_nonneg _ (by norm_num)
  have h2 : (n + 2147483648) % 4294967296 < 4294967296 :=
    Int.emod_lt_of_pos _ (by norm_num)
  omega

/-- C1: applying a decoded `EncoderTwisted` event (placeholder value 0)
mutates the cache so that the encoder's entry exists, and the delivered
event's `value` is exactly the post-update stored absolute position;
the state delivered alongside is the post-update cache, so the caller
never sees the raw placeholder. -/
theorem encoder_value_rewritten_after_apply (m : ButtonMap) (s : Push2State)
    (name : EncoderName) (raw : Nat) :
    ∃ v : Int,
      (s.update_from_event (.EncoderTwisted name raw 0) m).1.encoders name = some ⟨v⟩
      ∧ (deliver m s (.EncoderTwisted name raw 0)).1 = .EncoderTwisted name raw v
      ∧ (deliver m s (.EncoderTwisted name raw 0)).2.1
          = (s.update_from_event (.EncoderTwisted name raw 0) m).1 := by
  refine ⟨wrappingAdd32 (((s.encoders name).getD ⟨0⟩).value) 0, ?_, ?_, rfl⟩
  · simp [Push2State.update_from_event]
  · simp [deliver, Push2State.update_from_event, Option.elim]

/-- C2 (counterexample): with the `Control14` encoder stored at
`i32::MAX`, applying an `EncoderTwisted` event whose `value` field is 1
wraps the stored value to `i32::MIN`, which is neither the
spec-prescribed saturating result at decoded delta 7 (`raw_delta = 7`)
nor inside the [0,127] bound. -/
theorem encoder_wraps_at_i32_max :
    (sMax.update_from_event (.EncoderTwisted .Control14 7 1) mapEx).1.encoders
        EncoderName.Control14 = some ⟨-2147483648⟩
    ∧ (-2147483648 : Int) ≠ saturating_add32 2147483647 7
    ∧ ¬ (0 ≤ (-2147483648 : Int) ∧ (-2147483648 : Int) ≤ 127) :=
  ⟨by decide, by decide, by decide⟩

/-- C2 (amended): every `EncoderTwisted` apply stores
`wrapping_add(old, delta)` where `delta` is computed with the `> 64`
test from the event's `value` field; no [0,127] clamp is applied, but
the stored value always stays inside the `i32` range
`[-2^31, 2^31)`. -/
theorem encoder_update_wrapping_add (m : ButtonMap) (s : Push2State)
    (name : EncoderName) (raw : Nat) (v : Int) :
    ∃ w : Int,
      (s.update_from_event (.EncoderTwisted name raw v) m).1.encoders name = some ⟨w⟩
      ∧ w = wrappingAdd32 (((s.encoders name).getD ⟨0⟩).value)
              (if v > 64 then (128 - v) * (-1) else v)
      ∧ -2147483648 ≤ w ∧ w < 2147483648 := by
  refine ⟨wrappingAdd32 (((s.encoders name).getD ⟨0⟩).value)
            (if v > 64 then (128 - v) * (-1) else v), ?_, rfl, ?_, ?_⟩
  · simp [Push2State.update_from_event]
  · exact (wrap32_bounds _).1
  · exact (wrap32_bounds _).2

/-- C4: a note-on message yields `PadPressed` exactly when the velocity
is positive and `PadReleased` otherwise; a note-off message always
yields `PadReleased`; an unmapped address yields nothing. -/
theorem pad_message_decode (m : ButtonMap) (address velocity : Nat)
    (rest : List Nat) :
    decode_message m (144 :: address :: velocity :: rest)
      = (m.get_note address).map
          (fun c => if velocity > 0 then .PadPressed c velocity else .PadReleased c)
    ∧ decode_message m (128 :: address :: velocity :: rest)
      = (m.get_note address).map (fun c => .PadReleased c) := by
  constructor
  · cases h : m.get_note address with
    | none => simp [decode_message, NOTE_ON, h]
    | some c =>
        by_cases hv : velocity > 0 <;>
          simp [decode_message, NOTE_ON, h, hv]
  · cases h : m.get_note address <;>
      simp [decode_message, NOTE_ON, NOTE_OFF, h]

/-- C5: a control-change message prefers the button table (pressed when
the value is positive, released at 0); otherwise an encoder lookup
yields `EncoderTwisted` with `raw_delta` the wire value and `value` the
placeholder 0; otherwise nothing. -/
theorem control_change_decode (m : ButtonMap) (address velocity : Nat)
    (rest : List Nat) :
    decode_message m (176 :: address :: velocity :: rest)
      = match m.get_control address with
        | some name =>
            if velocity > 0 then some (.ButtonPressed name velocity)
            else some (.ButtonReleased name)
        | none =>
            (m.get_encoder address).map
              (fun n => Push2Event.EncoderTwisted n velocity 0) := by
  cases h : m.get_control address <;> cases h2 : m.get_encoder address <;>
    simp [decode_message, NOTE_ON, NOTE_OFF, CONTROL_CHANGE, h, h2]

/-- C7 (code evaluation at the failing input): queue the message
`[176, 14, 5]` — address 14 maps to encoder `Control14`, wire delta 5.
The claim (and the source's own comment) say the decoded delta 5 is
integrated, so the stored and delivered value should be 5; the code
computes the delta from the `value` placeholder, so both stay 0. -/
theorem encoder_delta_ignores_raw :
    (poll_event mapEx Push2State.new [[176, 14, 5]]).1
      = some (.EncoderTwisted .Control14 5 0)
    ∧ (poll_event mapEx Push2State.new [[176, 14, 5]]).2.1.encoders
        EncoderName.Control14 = some ⟨0⟩ :=
  ⟨by decide, by decide⟩

/-- C6 (code evaluation at the failing input): applying the input event
`PadPressed {(0,0), 10}` to a fresh cache writes velocity 10 but also
sets the pad's color to `PAD_COLOR_ON = 122` (it was 0), and applying
`ButtonPressed {Control29, 9}` sets the button's light to
`BUTTON_LIGHT_ON = 2` — input events do mutate the color/light fields,
against the claim and the function's own doc comment. -/
theorem pad_press_apply_sets_color :
    (Push2State.new.pads 0 0).color = 0
    ∧ (Push2State.new.update_from_event (.PadPressed ⟨0, 0⟩ 10) mapEx).1.pads 0 0
        = ⟨10, 122⟩
    ∧ (Push2State.new.update_from_event (.ButtonPressed .Control29 9) mapEx).1.buttons
        ControlName.Control29 = some ⟨9, 2⟩ :=
  ⟨by decide, by decide, by decide⟩

/-- C8: drawing one pixel at in-range `(x, y)` overwrites exactly the
frame-buffer cell `x + y * 960` (an index below 960·160), leaving every
other cell intact; any out-of-range point — negative included — leaves
the whole frame buffer unchanged, with no error and no out-of-bounds
index. -/
theorem draw_pixel_bounds (fb : Nat → Nat) (x y : Int) (color : Nat) :
    ((0 ≤ x ∧ x < 960 ∧ 0 ≤ y ∧ y < 160) →
      (draw_iter fb [((x, y), color)]) (x.toNat + y.toNat * 960) = color % 65536
      ∧ (∀ j, j ≠ x.toNat + y.toNat * 960 → draw_iter fb [((x, y), color)] j = fb j)
      ∧ x.toNat + y.toNat * 960 < 153600)
    ∧ (¬ (0 ≤ x ∧ x < 960 ∧ 0 ≤ y ∧ y < 160) →
        draw_iter fb [((x, y), color)] = fb) := by
  constructor
  · rintro ⟨hx0, hx, hy0, hy⟩
    have hc1 : 0 ≤ x := hx0
    have hc2 : x ≤ 959 := by omega
    have hc3 : 0 ≤ y := hy0
    have hc4 : y ≤ 159 := by omega
    refine ⟨?_, ?_, by omega⟩
    · simp [draw_iter, hc1, hc2, hc3, hc4]
    · intro j hj
      simp [draw_iter, hc1, hc2, hc3, hc4, hj]
  · intro h
    have hneg : ¬ (0 ≤ x ∧ x ≤ 959 ∧ 0 ≤ y ∧ y ≤ 159) := by omega
    funext j
    simp only [draw_iter, List.foldl_cons, List.foldl_nil]
    rw [if_neg hneg]

/-- Witness for C8 at the concrete points (5, 2) (in range) and
(960, 0) (dropped). -/
theorem draw_pixel_bounds_witness :
    (draw_iter fb0 [((5, 2), 7)]) ((5 : Int).toNat + (2 : Int).toNat * 960) = 7 % 65536
    ∧ draw_iter fb0 [((960, 0), 7)] = fb0 :=
  ⟨((draw_pixel_bounds fb0 5 2 7).1 (by decide)).1,
   (draw_pixel_bounds fb0 960 0 7).2 (by decide)⟩

/-- C9: a queued message that is too short for its three-byte status
(144/128/176/224 with fewer than 3 bytes) or that carries any other
status byte produces no event and no state change: polling it is the
same as polling the rest of the queue. -/
theorem short_or_unknown_message_dropped (m : ButtonMap) (s : Push2State)
    (status : Nat) (tail : List Nat) (rest : List (List Nat))
    (h : ((status = 144 ∨ status = 128 ∨ status = 176 ∨ status = 224)
            ∧ (status :: tail).length < 3)
         ∨ (status ≠ 144 ∧ status ≠ 128 ∧ status ≠ 176 ∧ status ≠ 224)) :
    poll_event m s ((status :: tail) :: rest) = poll_event m s rest := by
  have hd : decode_message m (status :: tail) = none := by
    rcases h with ⟨hs, hlen⟩ | ⟨h1, h2, h3, h4⟩
    · match tail with
      | [] =>
          rcases hs with h | h | h | h <;> subst h <;>
            simp [decode_message, NOTE_ON, NOTE_OFF, CONTROL_CHANGE, PITCH_BEND]
      | [a] =>
          rcases hs with h | h | h | h <;> subst h <;>
            simp [decode_message, NOTE_ON, NOTE_OFF, CONTROL_CHANGE, PITCH_BEND]
      | a :: b :: t => simp at hlen; omega
    · simp [decode_message, NOTE_ON, NOTE_OFF, CONTROL_CHANGE, PITCH_BEND,
        h1, h2, h3, h4]
  simp [poll_event, hd]

/-- Witness for C9: a 1-byte control-change fragment and a 3-byte
message with unknown status 99 are both skipped. -/
theorem short_or_unknown_message_dropped_witness :
    poll_event mapEx Push2State.new [[176]] = poll_event mapEx Push2State.new []
    ∧ poll_event mapEx Push2State.new [[99, 1, 2]]
        = poll_event mapEx Push2State.new [] :=
  ⟨short_or_unknown_message_dropped mapEx Push2State.new 176 [] []
      (Or.inl ⟨by decide, by decide⟩),
   short_or_unknown_message_dropped mapEx Push2State.new 99 [1, 2] []
      (Or.inr ⟨by decide, by decide, by decide, by decide⟩)⟩

/-- C10: for the facade commands `Push2::set_pad_color` and
`Push2::set_button_light`, an unmapped coordinate/name returns `Ok`
with the cached state untouched, and a failing transport send returns
the error with the cached state untouched — the cache is written only
after a successful send. -/
theorem light_commands_atomicity (m : ButtonMap) (send : List Nat → Bool)
    (s : Push2State) (coord : PadCoord) (name : ControlName) (color light : Nat) :
    (m.get_note_address coord = none →
        Push2.set_pad_color m send s coord color = (Except.ok (), s))
    ∧ (∀ a, m.get_note_address coord = some a →
        send (if color = 0 then [NOTE_OFF, a, 0] else [NOTE_ON, a, color]) = false →
        Push2.set_pad_color m send s coord color = (Except.error (), s))
    ∧ (m.get_control_address name = none →
        Push2.set_button_light m send s name light = (Except.ok (), s))
    ∧ (∀ a, m.get_control_address name = some a →
        send (if light = 0 then [CONTROL_CHANGE, a, 0] else [CONTROL_CHANGE, a, light])
          = false →
        Push2.set_button_light m send s name light = (Except.error (), s)) := by
  refine ⟨fun h => ?_, fun a ha hs => ?_, fun h => ?_, fun a ha hs => ?_⟩
  · simp [Push2.set_pad_color, h]
  · simp [Push2.set_pad_color, ha, hs]
  · simp [Push2.set_button_light, h]
  · simp [Push2.set_button_light, ha, hs]

/-- Witness for C10: under `mapEx`, pad (1,1) and button `Control20`
are unmapped (no-ops), while pad (0,0) and button `Control29` are
mapped and every send fails, leaving the fresh state untouched. -/
theorem light_commands_atomicity_witness :
    Push2.set_pad_color mapEx sendFail Push2State.new ⟨1, 1⟩ 5
      = (Except.ok (), Push2State.new)
    ∧ Push2.set_pad_color mapEx sendFail Push2State.new ⟨0, 0⟩ 5
      = (Except.error (), Push2State.new)
    ∧ Push2.set_button_light mapEx sendFail Push2State.new .Control20 3
      = (Except.ok (), Push2State.new)
    ∧ Push2.set_button_light mapEx sendFail Push2State.new .Control29 3
      = (Except.error (), Push2State.new) :=
  ⟨(light_commands_atomicity mapEx sendFail Push2State.new ⟨1, 1⟩ .Control20 5 3).1
      (by decide),
   (light_commands_atomicity mapEx sendFail Push2State.new ⟨0, 0⟩ .Control20 5 3).2.1
      36 (by decide) (by decide),
   (light_commands_atomicity mapEx sendFail Push2State.new ⟨1, 1⟩ .Control20 5 3).2.2.1
      (by decide),
   (light_commands_atomicity mapEx sendFail Push2State.new ⟨1, 1⟩ .Control29 5 3).2.2.2
      29 (by decide) (by decide)⟩

/-- Helper: `writePixel` leaves every byte other than its two
destination offsets untouched. -/
theorem writePixel_untouched (fb tb : Nat → Nat) (r c j : Nat)
    (h1 : j ≠ r * BYTES_PER_LINE + c * 2)
    (h2 : j ≠ r * BYTES_PER_LINE + c * 2 + 1) :
    writePixel fb tb r c j = tb j := by
  simp [writePixel, h1, h2]

/-- Helper: `writePixel` stores the masked low byte at its even
destination offset. -/
theorem writePixel_lo (fb tb : Nat → Nat) (r c : Nat) :
    writePixel fb tb r c (r * BYTES_PER_LINE + c * 2)
      = Nat.xor (fb (r * DISPLAY_WIDTH + c) % 256)
          (maskAt ((r * BYTES_PER_LINE + c * 2) % 4)) := by
  simp [writePixel]

/-- Helper: `writePixel` stores the masked high byte at its odd
destination offset. -/
theorem writePixel_hi (fb tb : Nat → Nat) (r c : Nat) :
    writePixel fb tb r c (r * BYTES_PER_LINE + c * 2 + 1)
      = Nat.xor (fb (r * DISPLAY_WIDTH + c) / 256 % 256)
          (maskAt ((r * BYTES_PER_LINE + c * 2 + 1) % 4)) := by
  have h : r * BYTES_PER_LINE + c * 2 + 1 ≠ r * BYTES_PER_LINE + c * 2 := by
    simp only [BYTES_PER_LINE]; omega
  simp [writePixel, h]

/-- Helper: the column fold leaves bytes outside all its destination
offsets untouched. -/
theorem lineFold_untouched (fb : Nat → Nat) (r j : Nat) :
    ∀ n, ∀ tb : Nat → Nat,
    (∀ c, c < n → j ≠ r * BYTES_PER_LINE + c * 2 ∧ j ≠ r * BYTES_PER_LINE + c * 2 + 1) →
    (List.range n).foldl (fun acc c => writePixel fb acc r c) tb j = tb j := by
  intro n
  induction n with
  | zero => intro tb _; simp
  | succ k ih =>
      intro tb h
      rw [List.range_succ, List.foldl_append, List.foldl_cons, List.foldl_nil]
      rw [writePixel_untouched _ _ _ _ _ (h k (by omega)).1 (h k (by omega)).2]
      exact ih tb (fun c hc => h c (by omega))

/-- Helper: after the column fold covering column `c0`, the even
destination byte of `c0` holds its masked low pixel byte. -/
theorem lineFold_lo (fb : Nat → Nat) (r c0 : Nat) :
    ∀ n, ∀ tb : Nat → Nat, c0 < n →
    (List.range n).foldl (fun acc c => writePixel fb acc r c) tb
        (r * BYTES_PER_LINE + c0 * 2)
      = Nat.xor (fb (r * DISPLAY_WIDTH + c0) % 256)
          (maskAt ((r * BYTES_PER_LINE + c0 * 2) % 4)) := by
  intro n
  induction n with
  | zero => intro tb h; exact absurd h (Nat.not_lt_zero c0)
  | succ k ih =>
      intro tb h
      rw [List.range_succ, List.foldl_append, List.foldl_cons, List.foldl_nil]
      by_cases hck : c0 = k
      · subst hck; exact writePixel_lo fb _ r c0
      · have h1 : r * BYTES_PER_LINE + c0 * 2 ≠ r * BYTES_PER_LINE + k * 2 := by
          simp only [BYTES_PER_LINE]; omega
        have h2 : r * BYTES_PER_LINE + c0 * 2 ≠ r * BYTES_PER_LINE + k * 2 + 1 := by
          simp only [BYTES_PER_LINE]; omega
        rw [writePixel_untouched _ _ _ _ _ h1 h2]
        exact ih tb (by omega)

/-- Helper: after the column fold covering column `c0`, the odd
destination byte of `c0` holds its masked high pixel byte. -/
theorem lineFold_hi (fb : Nat → Nat) (r c0 : Nat) :
    ∀ n, ∀ tb : Nat → Nat, c0 < n →
    (List.range n).foldl (fun acc c => writePixel fb acc r c) tb
        (r * BYTES_PER_LINE + c0 * 2 + 1)
      = Nat.xor (fb (r * DISPLAY_WIDTH + c0) / 256 % 256)
          (maskAt ((r * BYTES_PER_LINE + c0 * 2 + 1) % 4)) := by
  intro n
  induction n with
  | zero => intro tb h; exact absurd h (Nat.not_lt_zero c0)
  | succ k ih =>
      intro tb h
      rw [List.range_succ, List.foldl_append, List.foldl_cons, List.foldl_nil]
      by_cases hck : c0 = k
      · subst hck; exact writePixel_hi fb _ r c0
      · have h1 : r * BYTES_PER_LINE + c0 * 2 + 1 ≠ r * BYTES_PER_LINE + k * 2 := by
          simp only [BYTES_PER_LINE]; omega
        have h2 : r * BYTES_PER_LINE + c0 * 2 + 1 ≠ r * BYTES_PER_LINE + k * 2 + 1 := by
          simp only [BYTES_PER_LINE]; omega
        rw [writePixel_untouched _ _ _ _ _ h1 h2]
        exact ih tb (by omega)

/-- Helper: `updateLine` for row `r` leaves every byte outside row
`r`'s 1920-byte pixel region untouched. -/
theorem updateLine_untouched (fb tb : Nat → Nat) (r j : Nat)
    (h : ∀ c, c < 960 →
        j ≠ r * BYTES_PER_LINE + c * 2 ∧ j ≠ r * BYTES_PER_LINE + c * 2 + 1) :
    updateLine fb r tb j = tb j := by
  have := lineFold_untouched fb r j 960 tb h
  simpa [updateLine, DISPLAY_WIDTH] using this

/-- Helper: `updateLine` writes the masked low byte of column `c0`. -/
theorem updateLine_lo (fb tb : Nat → Nat) (r c0 : Nat) (h : c0 < 960) :
    updateLine fb r tb (r * BYTES_PER_LINE + c0 * 2)
      = Nat.xor (fb (r * DISPLAY_WIDTH + c0) % 256)
          (maskAt ((r * BYTES_PER_LINE + c0 * 2) % 4)) := by
  have := lineFold_lo fb r c0 960 tb h
  simpa [updateLine, DISPLAY_WIDTH] using this

/-- Helper: `updateLine` writes the masked high byte of column `c0`. -/
theorem updateLine_hi (fb tb : Nat → Nat) (r c0 : Nat) (h : c0 < 960) :
    updateLine fb r tb (r * BYTES_PER_LINE + c0 * 2 + 1)
      = Nat.xor (fb (r * DISPLAY_WIDTH + c0) / 256 % 256)
          (maskAt ((r * BYTES_PER_LINE + c0 * 2 + 1) % 4)) := by
  have := lineFold_hi fb r c0 960 tb h
  simpa [updateLine, DISPLAY_WIDTH] using this

/-- Helper: distinct rows use disjoint byte regions, so the row fold
preserves the masked low byte written for row `r0`, column `c0`. -/
theorem rowsFold_lo (fb : Nat → Nat) (r0 c0 : Nat) (hc : c0 < 960) :
    ∀ n, ∀ tb : Nat → Nat, r0 < n →
    (List.range n).foldl (fun acc r => updateLine fb r acc) tb
        (r0 * BYTES_PER_LINE + c0 * 2)
      = Nat.xor (fb (r0 * DISPLAY_WIDTH + c0) % 256)
          (maskAt ((r0 * BYTES_PER_LINE + c0 * 2) % 4)) := by
  intro n
  induction n with
  | zero => intro tb h; exact absurd h (Nat.not_lt_zero r0)
  | succ k ih =>
      intro tb h
      rw [List.range_succ, List.foldl_append, List.foldl_cons, List.foldl_nil]
      by_cases hrk : r0 = k
      · subst hrk; exact updateLine_lo fb _ r0 c0 hc
      · rw [updateLine_untouched fb _ k _ ?_]
        · exact ih tb (by omega)
        · intro c hcc
          constructor <;> · simp only [BYTES_PER_LINE]; omega

/-- Helper: the row fold preserves the masked high byte written for row
`r0`, column `c0`. -/
theorem rowsFold_hi (fb : Nat → Nat) (r0 c0 : Nat) (hc : c0 < 960) :
    ∀ n, ∀ tb : Nat → Nat, r0 < n →
    (List.range n).foldl (fun acc r => updateLine fb r acc) tb
        (r0 * BYTES_PER_LINE + c0 * 2 + 1)
      = Nat.xor (fb (r0 * DISPLAY_WIDTH + c0) / 256 % 256)
          (maskAt ((r0 * BYTES_PER_LINE + c0 * 2 + 1) % 4)) := by
  intro n
  induction n with
  | zero => intro tb h; exact absurd h (Nat.not_lt_zero r0)
  | succ k ih =>
      intro tb h
      rw [List.range_succ, List.foldl_append, List.foldl_cons, List.foldl_nil]
      by_cases hrk : r0 = k
      · subst hrk; exact updateLine_hi fb _ r0 c0 hc
      · rw [updateLine_untouched fb _ k _ ?_]
        · exact ih tb (by omega)
        · intro c hcc
          constructor <;> · simp only [BYTES_PER_LINE]; omega

/-- C3: after `flush`'s transfer-buffer encoding, every row `r < 160`
and column `c < 960` places the little-endian bytes of frame cell
`(c, r)` at transfer offsets `r*2048 + c*2` and `r*2048 + c*2 + 1`,
each XORed with the mask `[0xE7,0xF3,0xE7,0xFF]` indexed by the
whole-buffer offset mod 4; and `flush` performs exactly two bulk writes
with a 1-second timeout — the fixed 16-byte header, then the full
2048×160-byte buffer. -/
theorem transfer_buffer_encoding (fb tb : Nat → Nat) (r c : Nat)
    (hr : r < 160) (hc : c < 960) :
    (update_transfer_buffer fb tb) (r * 2048 + c * 2)
        = Nat.xor (fb (r * 960 + c) % 256) (MASK.getD ((r * 2048 + c * 2) % 4) 0)
    ∧ (update_transfer_buffer fb tb) (r * 2048 + c * 2 + 1)
        = Nat.xor (fb (r * 960 + c) / 256 % 256)
            (MASK.getD ((r * 2048 + c * 2 + 1) % 4) 0)
    ∧ (flush fb tb).1 = update_transfer_buffer fb tb
    ∧ (flush fb tb).2
        = [⟨1, HEADER, 1⟩, ⟨1, transferBytes (update_transfer_buffer fb tb), 1⟩]
    ∧ HEADER.length = 16
    ∧ (transferBytes (update_transfer_buffer fb tb)).length = 2048 * 160 := by
  refine ⟨?_, ?_, rfl, rfl, by decide, ?_⟩
  · have := rowsFold_lo fb r c hc 160 tb hr
    simpa [update_transfer_buffer, DISPLAY_HEIGHT, DISPLAY_WIDTH, BYTES_PER_LINE,
      maskAt] using this
  · have := rowsFold_hi fb r c hc 160 tb hr
    simpa [update_transfer_buffer, DISPLAY_HEIGHT, DISPLAY_WIDTH, BYTES_PER_LINE,
      maskAt] using this
  · simp [transferBytes, BYTES_PER_LINE, DISPLAY_HEIGHT]

/-- Witness for C3 at row 0, column 0 on all-zero buffers. -/
theorem transfer_buffer_encoding_witness :
    (update_transfer_buffer fb0 tb0) (0 * 2048 + 0 * 2)
        = Nat.xor (fb0 (0 * 960 + 0) % 256) (MASK.getD ((0 * 2048 + 0 * 2) % 4) 0)
    ∧ HEADER.length = 16 :=
  ⟨(transfer_buffer_encoding fb0 tb0 0 0 (by decide) (by decide)).1,
   (transfer_buffer_encoding fb0 tb0 0 0 (by decide) (by decide)).2.2.2.2.1⟩
